import Mathlib

/-!
Verification of the vblk NBD mount driver against its specification.

The development shallowly embeds the two source files of the crate:

* `src/nbd.rs` — the wire codec (request/reply frames, command decoding,
  reply construction) and the ioctl name table;
* `src/lib.rs` — the mount driver: geometry assertions, kernel
  configuration, the request loop dispatching to a backend, teardown.

Machine integers are modelled as `Nat`/`Int`; all wire fields are kept in
their big-endian wire value (the Rust code stores `x.to_be()` in memory and
serializes memory order, which on any host is exactly the big-endian byte
sequence, so storing the decoded wire value is an endianness-independent
equivalent).  The request loop is embedded as an executable function over
the byte stream the kernel sends on the userspace socket `U`, producing a
trace of I/O and backend events grouped into one block per request.
Socket writes are modelled as always succeeding; a socket read of a request
frame returns all available bytes up to the requested length, and
`read_exact` fails exactly when fewer bytes than requested remain, which is
the loop's only recoverable-error exit (Rust `?`).  Rust panics
(`assert!`, `assert_eq!`, `unreachable!`) are distinguished constructors of
the loop result.
-/

namespace Vblk

/-- Big-endian byte sequence of a 32-bit value; models serializing a `u32`
field that the code stores with `to_be()` (src/nbd.rs uses `zerocopy` to
write the in-memory bytes on the wire). -/
def be32 (n : Nat) : List Nat :=
  [n / 2 ^ 24 % 256, n / 2 ^ 16 % 256, n / 2 ^ 8 % 256, n % 256]

/-- Big-endian byte sequence of a 64-bit value. -/
def be64 (n : Nat) : List Nat :=
  [n / 2 ^ 56 % 256, n / 2 ^ 48 % 256, n / 2 ^ 40 % 256, n / 2 ^ 32 % 256,
   n / 2 ^ 24 % 256, n / 2 ^ 16 % 256, n / 2 ^ 8 % 256, n % 256]

/-- Decode a big-endian byte sequence to a natural number; models
`u32::from_be` / `u64::from_be` applied to a field read off the wire. -/
def from_be_bytes (l : List Nat) : Nat :=
  l.foldl (fun a b => a * 256 + b) 0

/-- Round `n` up to a multiple of the alignment `a` (C struct layout). -/
def alignUp (n a : Nat) : Nat := (n + a - 1) / a * a

/-- Fold the `repr(C)` layout of a struct given `(size, align)` per field:
returns the offset past the last field and the struct alignment. -/
def structLayout (fields : List (Nat × Nat)) : Nat × Nat :=
  fields.foldl (fun acc f => (alignUp acc.1 f.2 + f.1, max acc.2 f.2)) (0, 1)

/-- The `repr(C)` size of a struct: end offset rounded up to the alignment. -/
def structSize (fields : List (Nat × Nat)) : Nat :=
  alignUp (structLayout fields).1 (structLayout fields).2

/-- Field sizes and alignments of `struct Request` in src/nbd.rs:
`magic: u32, kind: u32, handle: u64, from: u64, len: u32, padding: u32`. -/
def requestFields : List (Nat × Nat) :=
  [(4, 4), (4, 4), (8, 8), (8, 8), (4, 4), (4, 4)]

/-- Models `std::mem::size_of::<Request>()`. -/
def sizeOfRequest : Nat := structSize requestFields

/-- `REQUEST_LEN` from src/nbd.rs: `size_of::<Request>() - 4`. -/
def REQUEST_LEN : Nat := sizeOfRequest - 4

/-- `REQUEST_MAGIC` from src/nbd.rs. -/
def REQUEST_MAGIC : Nat := 0x25609513

/-- `REPLY_MAGIC` from src/nbd.rs. -/
def REPLY_MAGIC : Nat := 0x67446698

/-- `CMD_READ` from src/nbd.rs. -/
def CMD_READ : Nat := 0

/-- `CMD_WRITE` from src/nbd.rs. -/
def CMD_WRITE : Nat := 1

/-- `CMD_DISC` from src/nbd.rs. -/
def CMD_DISC : Nat := 2

/-- `CMD_FLUSH` from src/nbd.rs. -/
def CMD_FLUSH : Nat := 3

/-- `CMD_TRIM` from src/nbd.rs. -/
def CMD_TRIM : Nat := 4

/-- `SEND_FLUSH` flag bit from src/nbd.rs (`1 << 2`). -/
def SEND_FLUSH : Nat := 4

/-- `SEND_TRIM` flag bit from src/nbd.rs (`1 << 5`). -/
def SEND_TRIM : Nat := 32

/-- The Linux `EIO` errno value, as used via `nix::errno::Errno::EIO`. -/
def EIO : Int := 5

/-- The command sum type from src/nbd.rs. -/
inductive Command where
  | Read
  | Write
  | Disconnect
  | Flush
  | Trim
  | Unknown
deriving DecidableEq

/-- The parsed request (`struct Request` in src/nbd.rs, without its
`padding` field, which is not part of the wire frame).  Each numeric field
holds the big-endian-decoded wire value; `handle` is kept as its raw eight
bytes because the code only ever copies it verbatim into the reply. -/
structure Request where
  magic : Nat
  kind : Nat
  handle : List Nat
  from_ : Nat
  len : Nat
deriving DecidableEq

/-- Reading a 28-byte wire frame into the `Request` struct (the loop reads
into `request.as_bytes_mut()[0..REQUEST_LEN]`). -/
def parseRequest (bytes : List Nat) : Request where
  magic := from_be_bytes (bytes.take 4)
  kind := from_be_bytes ((bytes.drop 4).take 4)
  handle := (bytes.drop 8).take 8
  from_ := from_be_bytes ((bytes.drop 16).take 8)
  len := from_be_bytes ((bytes.drop 24).take 4)

/-- `Request::is_magic_valid`: the stored magic equals
`REQUEST_MAGIC.to_be()`, i.e. the wire value equals `REQUEST_MAGIC`. -/
def Request.is_magic_valid (r : Request) : Bool :=
  r.magic == REQUEST_MAGIC

/-- `Request::command`: match on `u32::from_be(self.kind)`. -/
def Request.command (r : Request) : Command :=
  if r.kind = CMD_READ then .Read
  else if r.kind = CMD_WRITE then .Write
  else if r.kind = CMD_DISC then .Disconnect
  else if r.kind = CMD_FLUSH then .Flush
  else if r.kind = CMD_TRIM then .Trim
  else .Unknown

/-- `Request::offset`: `u64::from_be(self.from)`. -/
def Request.offset (r : Request) : Nat := r.from_

/-- The reply frame (`struct Reply` in src/nbd.rs); numeric fields hold the
big-endian wire value, `handle` its raw eight bytes. -/
structure Reply where
  magic : Nat
  error : Nat
  handle : List Nat
deriving DecidableEq

/-- `Request::new_reply_for_request`: magic pre-encoded, handle copied,
error zero. -/
def Request.new_reply_for_request (r : Request) : Reply where
  magic := REPLY_MAGIC
  error := 0
  handle := r.handle

/-- `Reply::set_errno`: stores `(errno as u32).to_be()`; the wire value of
the error field becomes the errno reduced to 32 bits (two's complement). -/
def Reply.set_errno (r : Reply) (errno : Int) : Reply :=
  { r with error := (errno % 2 ^ 32).toNat }

/-- Serialization of a reply (`zerocopy::AsBytes` on `struct Reply`):
magic, error, handle in declaration order, numeric fields big-endian. -/
def Reply.as_bytes (r : Reply) : List Nat :=
  be32 r.magic ++ be32 r.error ++ r.handle

/-- An abstract `std::io::Error`: an identity tag (errors are values, two
distinct errors may carry the same errno) plus `raw_os_error()`. -/
structure IOError where
  tag : Nat
  raw_os_error : Option Int
deriving DecidableEq

/-- A backend operation result, `Result<(), std::io::Error>`. -/
inductive OpResult where
  | ok
  | error (e : IOError)
deriving DecidableEq

/-- The errno handling shared by all four dispatch arms of the request loop
in src/lib.rs: `if let Err(err) = ... { reply.set_errno(
err.raw_os_error().unwrap_or(EIO as i32)) }`. -/
def applyOpError (reply : Reply) (res : OpResult) : Reply :=
  match res with
  | .ok => reply
  | .error err => reply.set_errno (err.raw_os_error.getD EIO)

/-- The bytes of the reply frame the loop emits for a request, as a
function of the request's handle and the backend outcome alone. -/
def replyFrameFor (handle : List Nat) (res : OpResult) : List Nat :=
  (applyOpError { magic := REPLY_MAGIC, error := 0, handle := handle } res).as_bytes

/-- The observable errno outcome of a backend operation: success, or the
`raw_os_error()` of the returned error. -/
def errnoOutcome : OpResult → Option (Option Int)
  | .ok => none
  | .error e => some e.raw_os_error

/-- The backend capability (`trait BlockDevice` in src/lib.rs) over an
explicit state type: read yields the buffer contents it left behind, the
other operations yield a result and possibly a new state; geometry is
queried once at mount. -/
structure Backend (σ : Type) where
  read : σ → Nat → List Nat → σ × OpResult × List Nat
  write : σ → Nat → List Nat → σ × OpResult
  flush : σ → σ × OpResult
  trim : σ → Nat → Nat → σ × OpResult
  unmount : σ → σ
  block_size : Nat
  blocks : Nat

/-- Well-formedness reflecting Rust's `&mut [u8]` argument of
`BlockDevice::read`: the backend cannot change the buffer's length. -/
def BackendWF {σ : Type} (b : Backend σ) : Prop :=
  ∀ s off buf, ((b.read s off buf).2.2).length = buf.length

/-- `Vec::resize(n, 0)`: keep the first `n` bytes, zero-fill up to `n`. -/
def resizeBuf (l : List Nat) (n : Nat) : List Nat :=
  l.take n ++ List.replicate (n - l.length) 0

/-- Observable events of one mount: socket reads/writes on the userspace
socket `U` and backend invocations, in program order. -/
inductive Event where
  | readReq (bytes : List Nat)
  | readPayload (bytes : List Nat)
  | writeReply (bytes : List Nat)
  | writePayload (bytes : List Nat)
  | backendRead (off len : Nat) (res : OpResult)
  | backendWrite (off : Nat) (data : List Nat) (res : OpResult)
  | backendFlush (res : OpResult)
  | backendTrim (off len : Nat) (res : OpResult)
  | backendUnmount
deriving DecidableEq

/-- How the request loop in src/lib.rs ends.  The `panic` constructors
model Rust panics (`assert_eq!`, `assert!`, `unreachable!`); `ioError`
models a `?` return caused by `read_exact` hitting end of stream. -/
inductive LoopResult where
  | eofExit
  | disconnectExit
  | panicShortRead (n : Nat)
  | panicBadMagic
  | panicUnknown
  | ioError
  | outOfFuel
deriving DecidableEq

/-- Outcome of one iteration of the request loop: either the loop stops
now (emitting the given blocks), or it continues with a new backend state,
the events of this request, the scratch buffer, and the unread input. -/
inductive StepOut (σ : Type) where
  | stop (s : σ) (blocks : List (List Event)) (res : LoopResult)
  | next (s : σ) (block : List Event) (buffer rest : List Nat)

/-- One iteration of the request loop of `mount` (src/lib.rs, lines
167-220): read up to `REQUEST_LEN` bytes, check length and magic, build the
paired reply, dispatch on the command. -/
def loopStep {σ : Type} (b : Backend σ) (s : σ) (buffer input : List Nat) :
    StepOut σ :=
  if input.length = 0 then .stop s [] .eofExit
  else if input.length < REQUEST_LEN then .stop s [] (.panicShortRead input.length)
  else
    let frame := input.take REQUEST_LEN
    let rest := input.drop REQUEST_LEN
    let rq := parseRequest frame
    if rq.is_magic_valid then
      match rq.command with
      | .Read =>
        let buf1 := resizeBuf buffer rq.len
        let t := b.read s rq.offset buf1
        let rb := (applyOpError rq.new_reply_for_request t.2.1).as_bytes
        .next t.1
          [Event.readReq frame, Event.backendRead rq.offset rq.len t.2.1,
           Event.writeReply rb, Event.writePayload t.2.2]
          t.2.2 rest
      | .Write =>
        let buf1 := resizeBuf buffer rq.len
        if rest.length < buf1.length then .stop s [[Event.readReq frame]] .ioError
        else
          let payload := rest.take buf1.length
          let w := b.write s rq.offset payload
          let rb := (applyOpError rq.new_reply_for_request w.2).as_bytes
          .next w.1
            [Event.readReq frame, Event.readPayload payload,
             Event.backendWrite rq.offset payload w.2, Event.writeReply rb]
            payload (rest.drop buf1.length)
      | .Flush =>
        let f := b.flush s
        let rb := (applyOpError rq.new_reply_for_request f.2).as_bytes
        .next f.1
          [Event.readReq frame, Event.backendFlush f.2, Event.writeReply rb]
          buffer rest
      | .Trim =>
        let t := b.trim s rq.offset rq.len
        let rb := (applyOpError rq.new_reply_for_request t.2).as_bytes
        .next t.1
          [Event.readReq frame, Event.backendTrim rq.offset rq.len t.2,
           Event.writeReply rb]
          buffer rest
      | .Disconnect =>
        .stop (b.unmount s) [[Event.readReq frame, Event.backendUnmount]] .disconnectExit
      | .Unknown => .stop s [[Event.readReq frame]] .panicUnknown
    else .stop s [[Event.readReq frame]] .panicBadMagic

/-- The request loop of `mount`, run to completion on the byte stream the
kernel sends on `U`, with explicit fuel (one unit per request).  Returns
the final backend state, the event trace grouped as one block per request,
and how the loop ended. -/
def runLoop {σ : Type} (b : Backend σ) :
    Nat → σ → List Nat → List Nat → σ × List (List Event) × LoopResult
  | 0, s, _, _ => (s, [], .outOfFuel)
  | fuel + 1, s, buffer, input =>
    match loopStep b s buffer input with
    | .stop s1 blocks res => (s1, blocks, res)
    | .next s1 block buffer1 rest =>
      let k := runLoop b fuel s1 buffer1 rest
      (k.1, block :: k.2.1, k.2.2)

/-- The named NBD ioctls of src/nbd.rs (request code base `0xab`). -/
inductive Ioctl where
  | set_sock
  | set_blksize (bs : Nat)
  | do_it
  | clear_sock
  | clear_que
  | set_size_blocks (n : Nat)
  | disconnect
  | set_timeout (secs : Nat)
  | set_flags (flags : Nat)
deriving DecidableEq

/-- How `mount` ends: a clean return, the `on_ready` callback's error
propagated by `?`, the socket I/O error produced inside the request loop
(`read_exact` hitting end of stream), or a Rust panic with its message. -/
inductive MountResult where
  | ok
  | err (e : IOError)
  | errSocket
  | panicked (msg : String)
deriving DecidableEq

/-- The observable outcome of one `mount` call: the ioctls issued from the
calling thread in order (configuration, then a forced disconnect on any
failure), whether the worker thread was spawned and the ioctls it issues,
the request-loop trace and exit, the final backend state, and the result. -/
structure MountOutcome (σ : Type) where
  ioctls : List Ioctl
  workerSpawned : Bool
  workerIoctls : List Ioctl
  loopBlocks : List (List Event)
  loopResult : Option LoopResult
  finalState : σ
  result : MountResult

/-- `u32::is_power_of_two` for values below `2 ^ 32`: there is an exponent
`k < 32` with `n = 2 ^ k`. -/
def is_power_of_two (n : Nat) : Bool :=
  (List.range 32).any fun k => n == 2 ^ k

/-- The `mount` function of src/lib.rs (lines 119-231), modelled on the
happy path of the environment: opening the device node, the configuration
ioctls, the socket pair creation and the worker's ioctls all succeed, and
socket writes succeed.  Inputs are the backend, its initial state, the
result of the `on_ready` callback, and the bytes the kernel will send on
the userspace socket before closing it.  The two `assert!` calls on the
geometry panic before the first configuration ioctl; a callback error is
propagated by `?` before the worker thread is spawned; the scope result is
inspected after the loop, and on any non-ok outcome a forced `disconnect`
ioctl is issued. -/
def mountModel {σ : Type} (b : Backend σ) (s : σ)
    (onReady : Except IOError Unit) (input : List Nat) : MountOutcome σ :=
  if is_power_of_two b.block_size = false then
    ⟨[], false, [], [], none, s,
      .panicked "assertion failed: block_size.is_power_of_two()"⟩
  else if b.block_size < 512 then
    ⟨[], false, [], [], none, s, .panicked "assertion failed: block_size >= 512"⟩
  else
    let cfg := [Ioctl.set_blksize b.block_size, Ioctl.set_size_blocks b.blocks,
                Ioctl.clear_sock]
    match onReady with
    | .error e => ⟨cfg ++ [Ioctl.disconnect], false, [], [], none, s, .err e⟩
    | .ok _ =>
      let r := runLoop b (input.length + 1) s [] input
      let res :=
        match r.2.2 with
        | .eofExit => MountResult.ok
        | .disconnectExit => MountResult.ok
        | .panicShortRead _ => MountResult.panicked "NBD driver error: too few bytes"
        | .panicBadMagic => MountResult.panicked "NBD driver error: invalid magic"
        | .panicUnknown => MountResult.panicked "NBD driver error: unknown request type"
        | .ioError => MountResult.errSocket
        | .outOfFuel => MountResult.panicked "out of fuel"
      ⟨cfg ++ (if res = MountResult.ok then [] else [Ioctl.disconnect]), true,
       [Ioctl.set_sock, Ioctl.set_flags (SEND_FLUSH ||| SEND_TRIM), Ioctl.do_it,
        Ioctl.clear_sock, Ioctl.clear_que],
       r.2.1, some r.2.2, r.1, res⟩

/-- Whether an event is a reply-frame write on the userspace socket. -/
def Event.isWriteReply : Event → Bool
  | .writeReply _ => true
  | _ => false

/-- Whether an event is a request-frame read from the userspace socket. -/
def Event.isReadReq : Event → Bool
  | .readReq _ => true
  | _ => false

/-- Whether an event is the `unmount` backend notification. -/
def Event.isUnmount : Event → Bool
  | .backendUnmount => true
  | _ => false

/-- The backend result recorded in an event, when the event is a backend
read, write, flush or trim. -/
def Event.opResult? : Event → Option OpResult
  | .backendRead _ _ r => some r
  | .backendWrite _ _ r => some r
  | .backendFlush r => some r
  | .backendTrim _ _ r => some r
  | _ => none

/-- The wire bytes of the error field of a serialized reply frame
(bytes 4 to 7). -/
def errorField (bytes : List Nat) : List Nat := (bytes.drop 4).take 4

/-- Number of `backendUnmount` notifications in a grouped trace. -/
def unmountCount (blocks : List (List Event)) : Nat :=
  (blocks.map fun bl => bl.countP Event.isUnmount).sum

/-- A request frame the loop accepts and answers: full length, valid
magic, and a known command other than `Disconnect`. -/
def acceptedNonDisconnect (frame : List Nat) : Bool :=
  frame.length == REQUEST_LEN && (parseRequest frame).is_magic_valid &&
    (match (parseRequest frame).command with
     | .Read => true
     | .Write => true
     | .Flush => true
     | .Trim => true
     | _ => false)

/-- The shapes a per-request event block of `runLoop` can take, given the
final loop result.  Used as the master characterization from which the
per-claim theorems are derived. -/
def GoodBlock (res : LoopResult) (bl : List Event) : Prop :=
  (∃ frame, frame.length = REQUEST_LEN ∧ bl = [Event.readReq frame] ∧
     ((parseRequest frame).is_magic_valid = false ∨
      ((parseRequest frame).is_magic_valid = true ∧
        (parseRequest frame).command = Command.Unknown) ∨
      ((parseRequest frame).is_magic_valid = true ∧
        (parseRequest frame).command = Command.Write ∧
        res = LoopResult.ioError))) ∨
  (∃ frame r buf2, frame.length = REQUEST_LEN ∧
     (parseRequest frame).is_magic_valid = true ∧
     (parseRequest frame).command = Command.Read ∧
     bl = [Event.readReq frame,
           Event.backendRead (parseRequest frame).offset (parseRequest frame).len r,
           Event.writeReply (replyFrameFor (parseRequest frame).handle r),
           Event.writePayload buf2] ∧
     buf2.length = (parseRequest frame).len) ∨
  (∃ frame payload r, frame.length = REQUEST_LEN ∧
     (parseRequest frame).is_magic_valid = true ∧
     (parseRequest frame).command = Command.Write ∧
     bl = [Event.readReq frame, Event.readPayload payload,
           Event.backendWrite (parseRequest frame).offset payload r,
           Event.writeReply (replyFrameFor (parseRequest frame).handle r)] ∧
     payload.length = (parseRequest frame).len) ∨
  (∃ frame r, frame.length = REQUEST_LEN ∧
     (parseRequest frame).is_magic_valid = true ∧
     (parseRequest frame).command = Command.Flush ∧
     bl = [Event.readReq frame, Event.backendFlush r,
           Event.writeReply (replyFrameFor (parseRequest frame).handle r)]) ∨
  (∃ frame r, frame.length = REQUEST_LEN ∧
     (parseRequest frame).is_magic_valid = true ∧
     (parseRequest frame).command = Command.Trim ∧
     bl = [Event.readReq frame,
           Event.backendTrim (parseRequest frame).offset (parseRequest frame).len r,
           Event.writeReply (replyFrameFor (parseRequest frame).handle r)]) ∨
  (∃ frame, frame.length = REQUEST_LEN ∧
     (parseRequest frame).is_magic_valid = true ∧
     (parseRequest frame).command = Command.Disconnect ∧
     bl = [Event.readReq frame, Event.backendUnmount] ∧
     res = LoopResult.disconnectExit)

/-- The per-block property claimed for accepted requests: the block starts
with its request read, contains no further request read, and when the
request is accepted with a known non-Disconnect command, it contains
exactly one reply-frame write; a Read block ends with the reply write
immediately followed by a payload write of exactly `length` bytes, and a
Write block reads exactly `length` payload bytes before the backend write
runs. -/
def C2BlockOK (bl : List Event) : Prop :=
  ∃ frame tl, bl = Event.readReq frame :: tl ∧ tl.countP Event.isReadReq = 0 ∧
    (acceptedNonDisconnect frame = true →
      bl.countP Event.isWriteReply = 1 ∧
      ((parseRequest frame).command = Command.Read →
        ∃ pre rb payload, bl = pre ++ [Event.writeReply rb, Event.writePayload payload] ∧
          payload.length = (parseRequest frame).len) ∧
      ((parseRequest frame).command = Command.Write →
        ∃ payload off r rb,
          bl = [Event.readReq frame, Event.readPayload payload,
                Event.backendWrite off payload r, Event.writeReply rb] ∧
          payload.length = (parseRequest frame).len))

/-- A trivial in-memory backend used to instantiate the theorems on
concrete runs: reads leave the buffer as is, every operation succeeds. -/
def testBackend : Backend Unit where
  read := fun s _ buf => (s, .ok, buf)
  write := fun s _ _ => (s, .ok)
  flush := fun s => (s, .ok)
  trim := fun s _ _ => (s, .ok)
  unmount := fun s => s
  block_size := 512
  blocks := 8

/-- The test backend with a block size of 256 bytes. -/
def backend256 : Backend Unit := { testBackend with block_size := 256 }

/-- A backend whose flush fails with an error that carries no OS errno. -/
def flushErrBackend : Backend Unit :=
  { testBackend with flush := fun s => (s, .error ⟨0, none⟩) }

/-- A backend whose write fails with errno 30 (`EROFS`). -/
def erofsBackend : Backend Unit :=
  { testBackend with write := fun s _ _ => (s, .error ⟨1, some 30⟩) }

/-- Build a request wire frame from its fields. -/
def mkFrame (kind : Nat) (handle : List Nat) (offset len : Nat) : List Nat :=
  be32 REQUEST_MAGIC ++ be32 kind ++ handle ++ be64 offset ++ be32 len

/-- An eight-byte handle used by the concrete runs. -/
def testHandle : List Nat := [1, 2, 3, 4, 5, 6, 7, 8]

theorem resizeBuf_length (l : List Nat) (n : Nat) : (resizeBuf l n).length = n := by
  simp [resizeBuf]; omega

theorem loopStep_stop_cases {σ : Type} (b : Backend σ) (s : σ) (buffer input : List Nat)
    (s1 : σ) (blocks : List (List Event)) (res : LoopResult)
    (h : loopStep b s buffer input = .stop s1 blocks res) :
    (blocks = [] ∧ (res = .eofExit ∨ res = .panicShortRead input.length)) ∨
    (∃ frame, frame = input.take REQUEST_LEN ∧ frame.length = REQUEST_LEN ∧
       blocks = [[Event.readReq frame]] ∧
       (((parseRequest frame).is_magic_valid = false ∧ res = .panicBadMagic) ∨
        ((parseRequest frame).is_magic_valid = true ∧
          (parseRequest frame).command = Command.Unknown ∧ res = .panicUnknown) ∨
        ((parseRequest frame).is_magic_valid = true ∧
          (parseRequest frame).command = Command.Write ∧ res = .ioError))) ∨
    (∃ frame, frame = input.take REQUEST_LEN ∧ frame.length = REQUEST_LEN ∧
       (parseRequest frame).is_magic_valid = true ∧
       (parseRequest frame).command = Command.Disconnect ∧
       blocks = [[Event.readReq frame, Event.backendUnmount]] ∧
       res = .disconnectExit ∧ s1 = b.unmount s) := by
  have hlen : input.length < REQUEST_LEN ∨ (input.take REQUEST_LEN).length = REQUEST_LEN := by
    rcases Nat.lt_or_ge input.length REQUEST_LEN with hc | hc
    · exact Or.inl hc
    · right; simp [List.length_take]; omega
  simp only [loopStep] at h
  split at h
  · cases h
    exact Or.inl ⟨rfl, Or.inl rfl⟩
  · split at h
    · cases h
      exact Or.inl ⟨rfl, Or.inr rfl⟩
    · rename_i h0 hge
      have hfl : (input.take REQUEST_LEN).length = REQUEST_LEN := by
        rcases hlen with hc | hc
        · exact absurd hc hge
        · exact hc
      split at h
      · rename_i hmagic
        split at h
        · exact StepOut.noConfusion h
        · rename_i hcmd
          split at h
          · cases h
            exact Or.inr (Or.inl ⟨_, rfl, hfl, rfl, Or.inr (Or.inr ⟨hmagic, hcmd, rfl⟩)⟩)
          · exact StepOut.noConfusion h
        · exact StepOut.noConfusion h
        · exact StepOut.noConfusion h
        · rename_i hcmd
          cases h
          exact Or.inr (Or.inr ⟨_, rfl, hfl, hmagic, hcmd, rfl, rfl, rfl⟩)
        · rename_i hcmd
          cases h
          exact Or.inr (Or.inl ⟨_, rfl, hfl, rfl, Or.inr (Or.inl ⟨hmagic, hcmd, rfl⟩)⟩)
      · rename_i hmagic
        cases h
        exact Or.inr (Or.inl ⟨_, rfl, hfl, rfl,
          Or.inl ⟨Bool.not_eq_true _ ▸ hmagic, rfl⟩⟩)

theorem loopStep_next_cases {σ : Type} (b : Backend σ) (hwf : BackendWF b)
    (s : σ) (buffer input : List Nat)
    (s1 : σ) (block : List Event) (buffer1 rest : List Nat)
    (h : loopStep b s buffer input = .next s1 block buffer1 rest) :
    rest.length < input.length ∧
    ∃ frame, frame = input.take REQUEST_LEN ∧ frame.length = REQUEST_LEN ∧
      (parseRequest frame).is_magic_valid = true ∧
      ((∃ r buf2, (parseRequest frame).command = Command.Read ∧
         block = [Event.readReq frame,
                  Event.backendRead (parseRequest frame).offset (parseRequest frame).len r,
                  Event.writeReply (replyFrameFor (parseRequest frame).handle r),
                  Event.writePayload buf2] ∧
         buf2.length = (parseRequest frame).len) ∨
       (∃ payload r, (parseRequest frame).command = Command.Write ∧
         block = [Event.readReq frame, Event.readPayload payload,
                  Event.backendWrite (parseRequest frame).offset payload r,
                  Event.writeReply (replyFrameFor (parseRequest frame).handle r)] ∧
         payload.length = (parseRequest frame).len) ∨
       (∃ r, (parseRequest frame).command = Command.Flush ∧
         block = [Event.readReq frame, Event.backendFlush r,
                  Event.writeReply (replyFrameFor (parseRequest frame).handle r)]) ∨
       (∃ r, (parseRequest frame).command = Command.Trim ∧
         block = [Event.readReq frame,
                  Event.backendTrim (parseRequest frame).offset (parseRequest frame).len r,
                  Event.writeReply (replyFrameFor (parseRequest frame).handle r)])) := by
  simp only [loopStep] at h
  split at h
  · exact StepOut.noConfusion h
  · split at h
    · exact StepOut.noConfusion h
    · rename_i h0 hge
      have hfl : (input.take REQUEST_LEN).length = REQUEST_LEN := by
        simp only [List.length_take]; omega
      have hdrop : (input.drop REQUEST_LEN).length < input.length := by
        simp only [List.length_drop]
        have : REQUEST_LEN = 28 := rfl
        omega
      split at h
      · rename_i hmagic
        split at h
        · rename_i hcmd
          cases h
          refine ⟨hdrop, _, rfl, hfl, hmagic, Or.inl ⟨_, _, hcmd, rfl, ?_⟩⟩
          rw [hwf, resizeBuf_length]
        · rename_i hcmd
          split at h
          · exact StepOut.noConfusion h
          · rename_i hpay
            cases h
            refine ⟨?_, _, rfl, hfl, hmagic, Or.inr (Or.inl ⟨_, _, hcmd, rfl, ?_⟩)⟩
            · simp only [List.length_drop]
              have : REQUEST_LEN = 28 := rfl
              omega
            · simp only [List.length_take, resizeBuf_length] at hpay ⊢
              omega
        · rename_i hcmd
          cases h
          exact ⟨hdrop, _, rfl, hfl, hmagic, Or.inr (Or.inr (Or.inl ⟨_, hcmd, rfl⟩))⟩
        · rename_i hcmd
          cases h
          exact ⟨hdrop, _, rfl, hfl, hmagic, Or.inr (Or.inr (Or.inr ⟨_, hcmd, rfl⟩))⟩
        · exact StepOut.noConfusion h
        · exact StepOut.noConfusion h
      · exact StepOut.noConfusion h

theorem runLoop_blocks {σ : Type} (b : Backend σ) (hwf : BackendWF b) :
    ∀ (fuel : Nat) (s : σ) (buffer input : List Nat),
    ∀ bl ∈ (runLoop b fuel s buffer input).2.1,
      GoodBlock (runLoop b fuel s buffer input).2.2 bl := by
  intro fuel
  induction fuel with
  | zero => intro s buffer input bl hbl; simp [runLoop] at hbl
  | succ n ih =>
    intro s buffer input bl hbl
    rcases hstep : loopStep b s buffer input with ⟨s1, blocks, res⟩ | ⟨s1, block, buffer1, rest⟩
    · simp only [runLoop, hstep] at hbl ⊢
      rcases loopStep_stop_cases b s buffer input s1 blocks res hstep with
        ⟨hb, _⟩ | ⟨frame, _, hfl, hb, hcase⟩ | ⟨frame, _, hfl, hmagic, hcmd, hb, hres, _⟩
      · subst hb; simp at hbl
      · subst hb
        simp only [List.mem_singleton] at hbl
        subst hbl
        rcases hcase with ⟨hm, hres⟩ | ⟨hm, hc, hres⟩ | ⟨hm, hc, hres⟩
        · exact Or.inl ⟨frame, hfl, rfl, Or.inl hm⟩
        · exact Or.inl ⟨frame, hfl, rfl, Or.inr (Or.inl ⟨hm, hc⟩)⟩
        · exact Or.inl ⟨frame, hfl, rfl, Or.inr (Or.inr ⟨hm, hc, hres⟩)⟩
      · subst hb
        simp only [List.mem_singleton] at hbl
        subst hbl
        exact Or.inr (Or.inr (Or.inr (Or.inr (Or.inr ⟨frame, hfl, hmagic, hcmd, rfl, hres⟩))))
    · simp only [runLoop, hstep] at hbl ⊢
      rcases List.mem_cons.1 hbl with hhead | htail
      · rw [hhead]
        rcases loopStep_next_cases b hwf s buffer input s1 block buffer1 rest hstep with
          ⟨_, frame, _, hfl, hmagic, hshape⟩
        rcases hshape with ⟨r, buf2, hcmd, hb, hlen⟩ | ⟨payload, r, hcmd, hb, hlen⟩ |
          ⟨r, hcmd, hb⟩ | ⟨r, hcmd, hb⟩
        · exact Or.inr (Or.inl ⟨frame, r, buf2, hfl, hmagic, hcmd, hb, hlen⟩)
        · exact Or.inr (Or.inr (Or.inl ⟨frame, payload, r, hfl, hmagic, hcmd, hb, hlen⟩))
        · exact Or.inr (Or.inr (Or.inr (Or.inl ⟨frame, r, hfl, hmagic, hcmd, hb⟩)))
        · exact Or.inr (Or.inr (Or.inr (Or.inr (Or.inl ⟨frame, r, hfl, hmagic, hcmd, hb⟩))))
      · exact ih s1 buffer1 rest bl htail

theorem unmountCount_nil : unmountCount [] = 0 := rfl

theorem unmountCount_cons (bl : List Event) (rest : List (List Event)) :
    unmountCount (bl :: rest) = bl.countP Event.isUnmount + unmountCount rest := by
  simp [unmountCount]

theorem runLoop_unmountCount {σ : Type} (b : Backend σ) (hwf : BackendWF b) :
    ∀ (fuel : Nat) (s : σ) (buffer input : List Nat),
    unmountCount (runLoop b fuel s buffer input).2.1 =
      if (runLoop b fuel s buffer input).2.2 = LoopResult.disconnectExit then 1 else 0 := by
  intro fuel
  induction fuel with
  | zero => intro s buffer input; simp [runLoop, unmountCount]
  | succ n ih =>
    intro s buffer input
    rcases hstep : loopStep b s buffer input with ⟨s1, blocks, res⟩ | ⟨s1, block, buffer1, rest⟩
    · simp only [runLoop, hstep]
      rcases loopStep_stop_cases b s buffer input s1 blocks res hstep with
        ⟨hb, hres⟩ | ⟨frame, _, _, hb, hcase⟩ | ⟨frame, _, _, _, _, hb, hres, _⟩
      · subst hb
        rcases hres with hres | hres <;> subst hres <;> simp [unmountCount]
      · subst hb
        rcases hcase with ⟨_, hres⟩ | ⟨_, _, hres⟩ | ⟨_, _, hres⟩ <;> subst hres <;>
          simp [unmountCount, Event.isUnmount]
      · subst hb; subst hres
        simp [unmountCount, Event.isUnmount]
    · simp only [runLoop, hstep]
      rw [unmountCount_cons]
      rcases loopStep_next_cases b hwf s buffer input s1 block buffer1 rest hstep with
        ⟨_, frame, _, _, _, hshape⟩
      have hz : block.countP Event.isUnmount = 0 := by
        rcases hshape with ⟨r, buf2, _, hb, _⟩ | ⟨payload, r, _, hb, _⟩ |
          ⟨r, _, hb⟩ | ⟨r, _, hb⟩ <;> subst hb <;> simp [Event.isUnmount]
      rw [hz, Nat.zero_add]
      exact ih s1 buffer1 rest

theorem runLoop_disconnect_last {σ : Type} (b : Backend σ) :
    ∀ (fuel : Nat) (s : σ) (buffer input : List Nat),
    (runLoop b fuel s buffer input).2.2 = LoopResult.disconnectExit →
    ∃ pre frame, (parseRequest frame).command = Command.Disconnect ∧
      (runLoop b fuel s buffer input).2.1 =
        pre ++ [[Event.readReq frame, Event.backendUnmount]] := by
  intro fuel
  induction fuel with
  | zero => intro s buffer input h; simp [runLoop] at h
  | succ n ih =>
    intro s buffer input h
    rcases hstep : loopStep b s buffer input with ⟨s1, blocks, res⟩ | ⟨s1, block, buffer1, rest⟩
    · simp only [runLoop, hstep] at h ⊢
      rcases loopStep_stop_cases b s buffer input s1 blocks res hstep with
        ⟨hb, hres⟩ | ⟨frame, _, _, hb, hcase⟩ | ⟨frame, _, _, _, hcmd, hb, hres, _⟩
      · subst h
        rcases hres with hres | hres <;> cases hres
      · subst h
        rcases hcase with ⟨_, hres⟩ | ⟨_, _, hres⟩ | ⟨_, _, hres⟩ <;> cases hres
      · subst hb
        exact ⟨[], frame, hcmd, rfl⟩
    · simp only [runLoop, hstep] at h ⊢
      rcases ih s1 buffer1 rest h with ⟨pre, frame, hcmd, hb⟩
      exact ⟨block :: pre, frame, hcmd, by rw [hb]; rfl⟩

theorem errorField_replyFrameFor (h : List Nat) (r : OpResult) :
    errorField (replyFrameFor h r) =
      be32 (match r with
            | .ok => 0
            | .error e => ((e.raw_os_error.getD EIO) % 2 ^ 32).toNat) := by
  cases r <;> rfl

theorem replyFrameFor_length (h : List Nat) (r : OpResult) :
    (replyFrameFor h r).length = 8 + h.length := by
  cases r <;> simp [replyFrameFor, applyOpError, Reply.as_bytes, Reply.set_errno, be32] <;> omega

theorem replyFrameFor_outcome (h : List Nat) (r1 r2 : OpResult)
    (he : errnoOutcome r1 = errnoOutcome r2) : replyFrameFor h r1 = replyFrameFor h r2 := by
  cases r1 <;> cases r2 <;> simp [errnoOutcome] at he ⊢
  simp [replyFrameFor, applyOpError, Reply.set_errno, he]

theorem parseRequest_handle_length (frame : List Nat) (h : frame.length = REQUEST_LEN) :
    (parseRequest frame).handle.length = 8 := by
  have h28 : frame.length = 28 := h
  simp [parseRequest, List.length_take, List.length_drop, h28]

theorem goodBlock_reply_eq (res : LoopResult) (bl : List Event) (hg : GoodBlock res bl)
    (rb : List Nat) (hrb : Event.writeReply rb ∈ bl)
    (ev : Event) (hev : ev ∈ bl) (r : OpResult) (hr : ev.opResult? = some r) :
    ∃ frame, bl.head? = some (Event.readReq frame) ∧ frame.length = REQUEST_LEN ∧
      rb = replyFrameFor (parseRequest frame).handle r := by
  rcases hg with ⟨f, hfl, hb, _⟩ | ⟨f, r0, buf2, hfl, _, _, hb, _⟩ |
    ⟨f, payload, r0, hfl, _, _, hb, _⟩ | ⟨f, r0, hfl, _, _, hb⟩ |
    ⟨f, r0, hfl, _, _, hb⟩ | ⟨f, hfl, _, _, hb, _⟩ <;> subst hb
  · simp at hrb
  · refine ⟨f, rfl, hfl, ?_⟩
    simp only [List.mem_cons, List.not_mem_nil, or_false] at hrb hev
    rcases hrb with h | h | h | h <;> cases h
    rcases hev with h | h | h | h <;> cases h <;> simp [Event.opResult?] at hr
    rw [hr]
  · refine ⟨f, rfl, hfl, ?_⟩
    simp only [List.mem_cons, List.not_mem_nil, or_false] at hrb hev
    rcases hrb with h | h | h | h <;> cases h
    rcases hev with h | h | h | h <;> cases h <;> simp [Event.opResult?] at hr
    rw [hr]
  · refine ⟨f, rfl, hfl, ?_⟩
    simp only [List.mem_cons, List.not_mem_nil, or_false] at hrb hev
    rcases hrb with h | h | h <;> cases h
    rcases hev with h | h | h <;> cases h <;> simp [Event.opResult?] at hr
    rw [hr]
  · refine ⟨f, rfl, hfl, ?_⟩
    simp only [List.mem_cons, List.not_mem_nil, or_false] at hrb hev
    rcases hrb with h | h | h <;> cases h
    rcases hev with h | h | h <;> cases h <;> simp [Event.opResult?] at hr
    rw [hr]
  · simp at hrb

/-- Counterexample to claim C1 as stated: the reply built for a concrete
parsed request does not carry magic 0x66446698 — neither as field value
nor in its first four wire bytes.  The code's constant (src/nbd.rs, line
99) is `0x6744_6698`, i.e. 0x67446698. -/
theorem c1_reply_construction_counterexample :
    (parseRequest (mkFrame 0 testHandle 0 0)).new_reply_for_request.magic ≠
      0x66446698 ∧
    (parseRequest (mkFrame 0 testHandle 0 0)).new_reply_for_request.as_bytes.take 4 ≠
      be32 0x66446698 := by
  decide

/-- Claim C1 (amended): for every parsed request, the reply frame built
for it has its magic field equal to 0x67446698 (the value `REPLY_MAGIC`
defined in the code; the spec's 0x66446698 is a typo) encoded big-endian,
its error field equal to zero, and its handle field equal to the request's
handle field copied verbatim. -/
theorem c1_reply_construction (r : Request) :
    r.new_reply_for_request.magic = REPLY_MAGIC ∧
    REPLY_MAGIC = 0x67446698 ∧
    r.new_reply_for_request.error = 0 ∧
    r.new_reply_for_request.handle = r.handle ∧
    r.new_reply_for_request.as_bytes = be32 0x67446698 ++ be32 0 ++ r.handle :=
  ⟨rfl, rfl, rfl, rfl, rfl⟩

/-- Claim C4: the command is decoded from the 32-bit kind field interpreted
big-endian, and the mapping is total: 0 maps to Read, 1 to Write, 2 to
Disconnect, 3 to Flush, 4 to Trim, and every other value to Unknown. -/
theorem c4_command_decoding (bytes : List Nat) (r : Request) :
    (parseRequest bytes).kind = from_be_bytes ((bytes.drop 4).take 4) ∧
    (r.kind = 0 → r.command = Command.Read) ∧
    (r.kind = 1 → r.command = Command.Write) ∧
    (r.kind = 2 → r.command = Command.Disconnect) ∧
    (r.kind = 3 → r.command = Command.Flush) ∧
    (r.kind = 4 → r.command = Command.Trim) ∧
    (r.kind ≠ 0 → r.kind ≠ 1 → r.kind ≠ 2 → r.kind ≠ 3 → r.kind ≠ 4 →
      r.command = Command.Unknown) := by
  refine ⟨rfl, ?_, ?_, ?_, ?_, ?_, ?_⟩
  · intro h; simp [Request.command, CMD_READ, CMD_WRITE, CMD_DISC, CMD_FLUSH, CMD_TRIM, h]
  · intro h; simp [Request.command, CMD_READ, CMD_WRITE, CMD_DISC, CMD_FLUSH, CMD_TRIM, h]
  · intro h; simp [Request.command, CMD_READ, CMD_WRITE, CMD_DISC, CMD_FLUSH, CMD_TRIM, h]
  · intro h; simp [Request.command, CMD_READ, CMD_WRITE, CMD_DISC, CMD_FLUSH, CMD_TRIM, h]
  · intro h; simp [Request.command, CMD_READ, CMD_WRITE, CMD_DISC, CMD_FLUSH, CMD_TRIM, h]
  · intro h0 h1 h2 h3 h4
    simp [Request.command, CMD_READ, CMD_WRITE, CMD_DISC, CMD_FLUSH, CMD_TRIM,
      h0, h1, h2, h3, h4]

/-- Witness for C4 at concrete kind values 7 (Unknown) and 3 (Flush). -/
theorem c4_command_decoding_witness :
    (Request.mk 0 7 [] 0 0).command = Command.Unknown ∧
    (Request.mk 0 3 [] 0 0).command = Command.Flush :=
  ⟨(c4_command_decoding [] (Request.mk 0 7 [] 0 0)).2.2.2.2.2.2
      (by decide) (by decide) (by decide) (by decide) (by decide),
   (c4_command_decoding [] (Request.mk 0 3 [] 0 0)).2.2.2.2.1 rfl⟩

/-- Claim C8: the wire request frame length constant REQUEST_LEN equals 28 bytes
and equals the size of the in-memory Request structure minus 4, the 4 being
the trailing padding field (which sits at offset REQUEST_LEN and is never
transmitted or received: parsing ignores anything past REQUEST_LEN
bytes). -/
theorem c8_request_len (frame extra : List Nat) (h : frame.length = REQUEST_LEN) :
    REQUEST_LEN = 28 ∧
    sizeOfRequest = 32 ∧
    REQUEST_LEN = sizeOfRequest - 4 ∧
    sizeOfRequest - REQUEST_LEN = 4 ∧
    alignUp (structLayout (requestFields.take 5)).1 4 = REQUEST_LEN ∧
    parseRequest (frame ++ extra) = parseRequest frame := by
  have h28 : frame.length = 28 := h
  refine ⟨rfl, rfl, rfl, rfl, rfl, ?_⟩
  have hdt : ∀ n m : Nat, n + m ≤ 28 →
      ((frame ++ extra).drop n).take m = (frame.drop n).take m := by
    intro n m hnm
    rw [List.drop_append_of_le_length (by omega),
        List.take_append_of_le_length (by simp [List.length_drop]; omega)]
  simp only [parseRequest, Request.mk.injEq]
  refine ⟨?_, ?_, ?_, ?_, ?_⟩
  · rw [List.take_append_of_le_length (by omega)]
  · rw [hdt 4 4 (by omega)]
  · rw [hdt 8 8 (by omega)]
  · rw [hdt 16 8 (by omega)]
  · rw [hdt 24 4 (by omega)]

/-- Witness for C8 at a concrete frame with four trailing padding bytes. -/
theorem c8_request_len_witness :
    REQUEST_LEN = 28 ∧
    parseRequest (mkFrame 0 testHandle 0 4 ++ [9, 9, 9, 9]) =
      parseRequest (mkFrame 0 testHandle 0 4) :=
  ⟨(c8_request_len (mkFrame 0 testHandle 0 4) [9, 9, 9, 9] (by decide)).1,
   (c8_request_len (mkFrame 0 testHandle 0 4) [9, 9, 9, 9] (by decide)).2.2.2.2.2⟩

/-- Claim C2: for every request the loop accepts with a known non-Disconnect
command, exactly one reply frame is written to U before the next request
is read (each block starts with its single request read and contains
exactly one reply write); a Read reply is immediately followed by exactly
`length` payload bytes regardless of the backend result; a Write reads
exactly `length` payload bytes from U before the backend write runs.  The
hypothesis excludes the run that dies with a socket I/O error
(`read_exact` hitting end of stream), which the spec treats separately as
a fatal socket error. -/
theorem c2_one_reply_per_request {σ : Type} (b : Backend σ) (hwf : BackendWF b)
    (fuel : Nat) (s : σ) (buffer input : List Nat)
    (hio : (runLoop b fuel s buffer input).2.2 ≠ LoopResult.ioError)
    (bl : List Event) (hbl : bl ∈ (runLoop b fuel s buffer input).2.1) :
    C2BlockOK bl := by
  have hg := runLoop_blocks b hwf fuel s buffer input bl hbl
  rcases hg with ⟨f, hfl, hb, hcase⟩ | ⟨f, r0, buf2, hfl, hm, hcmd, hb, hlen⟩ |
    ⟨f, payload, r0, hfl, hm, hcmd, hb, hlen⟩ | ⟨f, r0, hfl, hm, hcmd, hb⟩ |
    ⟨f, r0, hfl, hm, hcmd, hb⟩ | ⟨f, hfl, hm, hcmd, hb, hres⟩ <;> subst hb
  · refine ⟨f, [], rfl, rfl, fun hacc => ?_⟩
    rcases hcase with hm | ⟨hm, hc⟩ | ⟨hm, hc, hres⟩
    · simp [acceptedNonDisconnect, hm] at hacc
    · simp [acceptedNonDisconnect, hc] at hacc
    · exact absurd hres hio
  · refine ⟨f, _, rfl, ?_, fun hacc => ⟨?_, fun _ => ?_, fun hw => ?_⟩⟩
    · simp [List.countP_cons, List.countP_nil, Event.isReadReq]
    · simp [List.countP_cons, List.countP_nil, Event.isWriteReply]
    · exact ⟨[Event.readReq f,
        Event.backendRead (parseRequest f).offset (parseRequest f).len r0],
        replyFrameFor (parseRequest f).handle r0, buf2, rfl, hlen⟩
    · rw [hcmd] at hw; cases hw
  · refine ⟨f, _, rfl, ?_, fun hacc => ⟨?_, fun hre => ?_, fun _ => ?_⟩⟩
    · simp [List.countP_cons, List.countP_nil, Event.isReadReq]
    · simp [List.countP_cons, List.countP_nil, Event.isWriteReply]
    · rw [hcmd] at hre; cases hre
    · exact ⟨payload, (parseRequest f).offset, r0,
        replyFrameFor (parseRequest f).handle r0, rfl, hlen⟩
  · refine ⟨f, _, rfl, ?_, fun hacc => ⟨?_, fun hre => ?_, fun hw => ?_⟩⟩
    · simp [List.countP_cons, List.countP_nil, Event.isReadReq]
    · simp [List.countP_cons, List.countP_nil, Event.isWriteReply]
    · rw [hcmd] at hre; cases hre
    · rw [hcmd] at hw; cases hw
  · refine ⟨f, _, rfl, ?_, fun hacc => ⟨?_, fun hre => ?_, fun hw => ?_⟩⟩
    · simp [List.countP_cons, List.countP_nil, Event.isReadReq]
    · simp [List.countP_cons, List.countP_nil, Event.isWriteReply]
    · rw [hcmd] at hre; cases hre
    · rw [hcmd] at hw; cases hw
  · refine ⟨f, _, rfl, ?_, fun hacc => ?_⟩
    · simp [List.countP_cons, List.countP_nil, Event.isReadReq]
    · simp [acceptedNonDisconnect, hcmd] at hacc

/-- Witness for C2 on a concrete Read request of length 4. -/
theorem c2_one_reply_per_request_witness :
    C2BlockOK [Event.readReq (mkFrame CMD_READ testHandle 0 4),
      Event.backendRead 0 4 OpResult.ok,
      Event.writeReply (be32 REPLY_MAGIC ++ be32 0 ++ testHandle),
      Event.writePayload [0, 0, 0, 0]] :=
  c2_one_reply_per_request testBackend (fun _ _ _ => rfl) 2 () []
    (mkFrame CMD_READ testHandle 0 4) (by decide) _ (by decide)

/-- Claim C3: for every Read, Write, Flush or Trim request, a backend error
carrying a raw OS errno `e` makes the reply's error field the big-endian
encoding of `e`; an error without an errno makes it the big-endian
encoding of EIO; success leaves it zero. -/
theorem c3_errno_mapping {σ : Type} (b : Backend σ) (hwf : BackendWF b)
    (fuel : Nat) (s : σ) (buffer input : List Nat)
    (bl : List Event) (hbl : bl ∈ (runLoop b fuel s buffer input).2.1)
    (ev : Event) (hev : ev ∈ bl) (r : OpResult) (hr : ev.opResult? = some r)
    (rb : List Nat) (hrb : Event.writeReply rb ∈ bl) :
    (r = OpResult.ok → errorField rb = be32 0) ∧
    (∀ err e, r = OpResult.error err → err.raw_os_error = some e →
      0 ≤ e → e < 2 ^ 32 → errorField rb = be32 e.toNat) ∧
    (∀ err, r = OpResult.error err → err.raw_os_error = none →
      errorField rb = be32 (Int.toNat EIO)) := by
  obtain ⟨frame, _, _, hrbeq⟩ :=
    goodBlock_reply_eq _ bl (runLoop_blocks b hwf fuel s buffer input bl hbl)
      rb hrb ev hev r hr
  subst hrbeq
  refine ⟨?_, ?_, ?_⟩
  · intro h; subst h; rw [errorField_replyFrameFor]
  · intro err e h hsome h0 hlt; subst h
    rw [errorField_replyFrameFor]
    simp only [hsome, Option.getD_some]
    rw [Int.emod_eq_of_lt h0 hlt]
  · intro err h hnone; subst h
    rw [errorField_replyFrameFor]
    simp only [hnone, Option.getD_none]
    decide

/-- Witness for C3 on a concrete Flush whose backend error has no errno. -/
theorem c3_errno_mapping_witness :
    errorField (replyFrameFor testHandle (OpResult.error ⟨0, none⟩)) =
      be32 (Int.toNat EIO) :=
  (c3_errno_mapping flushErrBackend (fun _ _ _ => rfl) 2 () []
      (mkFrame CMD_FLUSH testHandle 0 0)
      [Event.readReq (mkFrame CMD_FLUSH testHandle 0 0),
       Event.backendFlush (OpResult.error ⟨0, none⟩),
       Event.writeReply (replyFrameFor testHandle (OpResult.error ⟨0, none⟩))]
      (by decide) (Event.backendFlush (OpResult.error ⟨0, none⟩)) (by decide)
      (OpResult.error ⟨0, none⟩) rfl
      (replyFrameFor testHandle (OpResult.error ⟨0, none⟩)) (by decide)).2.2
    ⟨0, none⟩ rfl rfl

/-- Claim C10: every reply frame the loop emits is a function of the request's
handle and the backend's errno outcome alone — it is 16 bytes, equals
`replyFrameFor handle result`, and `replyFrameFor` does not distinguish
results with the same errno outcome — so two accepted requests with equal
handles and equal errno outcomes produce byte-for-byte identical reply
frames, whatever their command, offset, length or payload. -/
theorem c10_reply_noninterference {σ : Type} (b : Backend σ) (hwf : BackendWF b)
    (fuel : Nat) (s : σ) (buffer input : List Nat)
    (bl : List Event) (hbl : bl ∈ (runLoop b fuel s buffer input).2.1)
    (frame : List Nat) (hhead : bl.head? = some (Event.readReq frame))
    (rb : List Nat) (hrb : Event.writeReply rb ∈ bl)
    (ev : Event) (hev : ev ∈ bl) (r : OpResult) (hr : ev.opResult? = some r) :
    rb = replyFrameFor (parseRequest frame).handle r ∧
    rb.length = 16 ∧
    (∀ (handle : List Nat) (r1 r2 : OpResult), errnoOutcome r1 = errnoOutcome r2 →
      replyFrameFor handle r1 = replyFrameFor handle r2) := by
  obtain ⟨frame2, hhead2, hfl2, hrbeq⟩ :=
    goodBlock_reply_eq _ bl (runLoop_blocks b hwf fuel s buffer input bl hbl)
      rb hrb ev hev r hr
  rw [hhead] at hhead2
  simp only [Option.some.injEq, Event.readReq.injEq] at hhead2
  subst hhead2
  refine ⟨hrbeq, ?_, replyFrameFor_outcome⟩
  rw [hrbeq, replyFrameFor_length, parseRequest_handle_length frame hfl2]

/-- Witness for C10 on a concrete failed Write: the emitted frame is 16
bytes and coincides with the frame of a distinct error value carrying the
same errno. -/
theorem c10_reply_noninterference_witness :
    (replyFrameFor testHandle (OpResult.error ⟨1, some 30⟩)).length = 16 ∧
    replyFrameFor testHandle (OpResult.error ⟨1, some 30⟩) =
      replyFrameFor testHandle (OpResult.error ⟨2, some 30⟩) :=
  ⟨(c10_reply_noninterference erofsBackend (fun _ _ _ => rfl) 2 () []
      (mkFrame CMD_WRITE testHandle 0 2 ++ [9, 9])
      [Event.readReq (mkFrame CMD_WRITE testHandle 0 2),
       Event.readPayload [9, 9],
       Event.backendWrite 0 [9, 9] (OpResult.error ⟨1, some 30⟩),
       Event.writeReply (replyFrameFor testHandle (OpResult.error ⟨1, some 30⟩))]
      (by decide) (mkFrame CMD_WRITE testHandle 0 2) (by decide)
      (replyFrameFor testHandle (OpResult.error ⟨1, some 30⟩)) (by decide)
      (Event.backendWrite 0 [9, 9] (OpResult.error ⟨1, some 30⟩)) (by decide)
      (OpResult.error ⟨1, some 30⟩) rfl).2.1,
   (c10_reply_noninterference erofsBackend (fun _ _ _ => rfl) 2 () []
      (mkFrame CMD_WRITE testHandle 0 2 ++ [9, 9])
      [Event.readReq (mkFrame CMD_WRITE testHandle 0 2),
       Event.readPayload [9, 9],
       Event.backendWrite 0 [9, 9] (OpResult.error ⟨1, some 30⟩),
       Event.writeReply (replyFrameFor testHandle (OpResult.error ⟨1, some 30⟩))]
      (by decide) (mkFrame CMD_WRITE testHandle 0 2) (by decide)
      (replyFrameFor testHandle (OpResult.error ⟨1, some 30⟩)) (by decide)
      (Event.backendWrite 0 [9, 9] (OpResult.error ⟨1, some 30⟩)) (by decide)
      (OpResult.error ⟨1, some 30⟩) rfl).2.2 testHandle
      (OpResult.error ⟨1, some 30⟩) (OpResult.error ⟨2, some 30⟩) rfl⟩

/-- Claim C6: at mount, after opening the device node and querying geometry, the
driver asserts that block_size is a power of two and at least 512, aborting
on violation before any kernel configuration ioctl is issued; block_size
512 passes the check and 256 is rejected. -/
theorem c6_geometry_assert {σ : Type} (b : Backend σ) (s : σ)
    (onReady : Except IOError Unit) (input : List Nat) :
    ((is_power_of_two b.block_size = false ∨ b.block_size < 512) →
      (mountModel b s onReady input).ioctls = [] ∧
      ∃ msg, (mountModel b s onReady input).result = MountResult.panicked msg) ∧
    (is_power_of_two b.block_size = true → 512 ≤ b.block_size →
      (mountModel b s onReady input).ioctls.take 3 =
        [Ioctl.set_blksize b.block_size, Ioctl.set_size_blocks b.blocks,
         Ioctl.clear_sock]) ∧
    ((mountModel backend256 () (Except.ok ()) []).ioctls = [] ∧
      (mountModel backend256 () (Except.ok ()) []).result =
        MountResult.panicked "assertion failed: block_size >= 512") ∧
    (mountModel testBackend () (Except.ok ()) []).ioctls =
      [Ioctl.set_blksize 512, Ioctl.set_size_blocks 8, Ioctl.clear_sock] := by
  refine ⟨?_, ?_, by decide, by decide⟩
  · intro hbad
    by_cases hpow : is_power_of_two b.block_size = false
    · simp [mountModel, hpow]
    · have hb2 : b.block_size < 512 := by
        rcases hbad with hb1 | hb2
        · exact absurd hb1 hpow
        · exact hb2
      simp [mountModel, hpow, hb2]
  · intro hpow hge
    have hpow' : ¬ is_power_of_two b.block_size = false := by simp [hpow]
    have hlt : ¬ b.block_size < 512 := by omega
    cases onReady with
    | error e => simp [mountModel, hpow', hlt]
    | ok u =>
      simp only [mountModel]
      rw [if_neg (by simp [hpow]), if_neg hlt]
      rfl

/-- Witness for C6: with a 256-byte block size the mount panics with no
ioctl issued, and the general prefix statement holds for the 512-byte test
backend. -/
theorem c6_geometry_assert_witness :
    (mountModel backend256 () (Except.ok ()) []).ioctls = [] ∧
    (mountModel testBackend () (Except.ok ()) []).ioctls.take 3 =
      [Ioctl.set_blksize 512, Ioctl.set_size_blocks 8, Ioctl.clear_sock] :=
  ⟨((c6_geometry_assert backend256 () (Except.ok ()) []).1 (Or.inr (by decide))).1,
   (c6_geometry_assert testBackend () (Except.ok ()) []).2.1 (by decide) (by decide)⟩

/-- Claim C9: if the on_ready callback returns an error, mount returns exactly
that error, no backend operation or unmount notification runs (the loop
never starts and the backend state is unchanged), the worker thread is
never spawned, and the force-disconnect ioctl is nevertheless issued. -/
theorem c9_callback_error {σ : Type} (b : Backend σ) (s : σ) (e : IOError)
    (input : List Nat)
    (h1 : is_power_of_two b.block_size = true) (h2 : 512 ≤ b.block_size) :
    (mountModel b s (Except.error e) input).result = MountResult.err e ∧
    (mountModel b s (Except.error e) input).workerSpawned = false ∧
    (mountModel b s (Except.error e) input).loopBlocks = [] ∧
    (mountModel b s (Except.error e) input).loopResult = none ∧
    (mountModel b s (Except.error e) input).finalState = s ∧
    (mountModel b s (Except.error e) input).ioctls =
      [Ioctl.set_blksize b.block_size, Ioctl.set_size_blocks b.blocks,
       Ioctl.clear_sock, Ioctl.disconnect] := by
  have hpow' : ¬ is_power_of_two b.block_size = false := by simp [h1]
  have hlt : ¬ b.block_size < 512 := by omega
  simp [mountModel, hpow', hlt]

/-- Witness for C9 at a concrete callback error with errno 13. -/
theorem c9_callback_error_witness :
    (mountModel testBackend () (Except.error ⟨3, some 13⟩) []).result =
      MountResult.err ⟨3, some 13⟩ ∧
    (mountModel testBackend () (Except.error ⟨3, some 13⟩) []).workerSpawned = false ∧
    (mountModel testBackend () (Except.error ⟨3, some 13⟩) []).ioctls =
      [Ioctl.set_blksize 512, Ioctl.set_size_blocks 8, Ioctl.clear_sock,
       Ioctl.disconnect] :=
  have h := c9_callback_error testBackend () ⟨3, some 13⟩ [] (by decide) (by decide)
  ⟨h.1, h.2.1, h.2.2.2.2.2⟩

/-- Claim C5: backend.unmount() runs exactly once if and only if the request
loop decodes a Disconnect command; in that case the Disconnect block
carries no reply write, it is the last block, and mount returns success;
on a plain EOF exit unmount never runs and mount also returns success. -/
theorem c5_unmount_iff_disconnect {σ : Type} (b : Backend σ) (hwf : BackendWF b)
    (s : σ) (onReady : Except IOError Unit) (input : List Nat) :
    (unmountCount (mountModel b s onReady input).loopBlocks = 1 ↔
      (mountModel b s onReady input).loopResult = some LoopResult.disconnectExit) ∧
    ((mountModel b s onReady input).loopResult = some LoopResult.disconnectExit →
      (mountModel b s onReady input).result = MountResult.ok ∧
      ∃ pre frame, (parseRequest frame).command = Command.Disconnect ∧
        (mountModel b s onReady input).loopBlocks =
          pre ++ [[Event.readReq frame, Event.backendUnmount]] ∧
        List.countP Event.isWriteReply [Event.readReq frame, Event.backendUnmount] = 0) ∧
    ((mountModel b s onReady input).loopResult = some LoopResult.eofExit →
      unmountCount (mountModel b s onReady input).loopBlocks = 0 ∧
      (mountModel b s onReady input).result = MountResult.ok) := by
  by_cases hpow : is_power_of_two b.block_size = false
  · simp [mountModel, hpow, unmountCount]
  · by_cases hlt : b.block_size < 512
    · simp [mountModel, hpow, hlt, unmountCount]
    · cases onReady with
      | error e => simp [mountModel, hpow, hlt, unmountCount]
      | ok u =>
        simp only [mountModel]
        rw [if_neg hpow, if_neg hlt]
        have hcount := runLoop_unmountCount b hwf (input.length + 1) s [] input
        have hlast := runLoop_disconnect_last b (input.length + 1) s [] input
        refine ⟨?_, ?_, ?_⟩
        · show unmountCount (runLoop b (input.length + 1) s [] input).2.1 = 1 ↔
            some (runLoop b (input.length + 1) s [] input).2.2 =
              some LoopResult.disconnectExit
          rw [hcount]
          by_cases hd : (runLoop b (input.length + 1) s [] input).2.2 =
              LoopResult.disconnectExit
          · simp [hd]
          · simp [hd]
        · intro hdisc
          simp only [MountOutcome.loopResult, Option.some.injEq] at hdisc
          obtain ⟨pre, frame, hcmd, hb⟩ := hlast hdisc
          refine ⟨?_, pre, frame, hcmd, hb, rfl⟩
          show (match (runLoop b (input.length + 1) s [] input).2.2 with
                | LoopResult.eofExit => MountResult.ok
                | LoopResult.disconnectExit => MountResult.ok
                | LoopResult.panicShortRead _ =>
                    MountResult.panicked "NBD driver error: too few bytes"
                | LoopResult.panicBadMagic =>
                    MountResult.panicked "NBD driver error: invalid magic"
                | LoopResult.panicUnknown =>
                    MountResult.panicked "NBD driver error: unknown request type"
                | LoopResult.ioError => MountResult.errSocket
                | LoopResult.outOfFuel => MountResult.panicked "out of fuel") =
              MountResult.ok
          rw [hdisc]
        · intro heof
          simp only [MountOutcome.loopResult, Option.some.injEq] at heof
          constructor
          · show unmountCount (runLoop b (input.length + 1) s [] input).2.1 = 0
            rw [hcount, heof]
            decide
          · show (match (runLoop b (input.length + 1) s [] input).2.2 with
                  | LoopResult.eofExit => MountResult.ok
                  | LoopResult.disconnectExit => MountResult.ok
                  | LoopResult.panicShortRead _ =>
                      MountResult.panicked "NBD driver error: too few bytes"
                  | LoopResult.panicBadMagic =>
                      MountResult.panicked "NBD driver error: invalid magic"
                  | LoopResult.panicUnknown =>
                      MountResult.panicked "NBD driver error: unknown request type"
                  | LoopResult.ioError => MountResult.errSocket
                  | LoopResult.outOfFuel => MountResult.panicked "out of fuel") =
                MountResult.ok
            rw [heof]

/-- Witness for C5 on a concrete Disconnect request and a concrete EOF. -/
theorem c5_unmount_iff_disconnect_witness :
    unmountCount (mountModel testBackend () (Except.ok ())
        (mkFrame CMD_DISC testHandle 0 0)).loopBlocks = 1 ∧
    (mountModel testBackend () (Except.ok ())
        (mkFrame CMD_DISC testHandle 0 0)).result = MountResult.ok ∧
    unmountCount (mountModel testBackend () (Except.ok ()) []).loopBlocks = 0 :=
  have hd := c5_unmount_iff_disconnect testBackend (fun _ _ _ => rfl) ()
    (Except.ok ()) (mkFrame CMD_DISC testHandle 0 0)
  have he := c5_unmount_iff_disconnect testBackend (fun _ _ _ => rfl) ()
    (Except.ok ()) []
  ⟨hd.1.mpr (by decide), (hd.2.1 (by decide)).1, (he.2.2 (by decide)).1⟩

/-- Claim C7: processing one request, the loop panics (rather than returning a
recoverable error) in exactly these driver-protocol-violation cases: a
read that returns more than 0 but fewer than 28 bytes, a request whose
magic is not the big-endian encoding of 0x25609513, and a request that
decodes to the Unknown command; the short-read panic reports the number of
bytes read. -/
theorem c7_protocol_violation_panics {σ : Type} (b : Backend σ) (s : σ)
    (buffer input : List Nat) :
    ((∃ n, (runLoop b 1 s buffer input).2.2 = LoopResult.panicShortRead n) ↔
      (0 < input.length ∧ input.length < REQUEST_LEN)) ∧
    ((runLoop b 1 s buffer input).2.2 = LoopResult.panicBadMagic ↔
      (REQUEST_LEN ≤ input.length ∧
        (parseRequest (input.take REQUEST_LEN)).is_magic_valid = false)) ∧
    ((runLoop b 1 s buffer input).2.2 = LoopResult.panicUnknown ↔
      (REQUEST_LEN ≤ input.length ∧
        (parseRequest (input.take REQUEST_LEN)).is_magic_valid = true ∧
        (parseRequest (input.take REQUEST_LEN)).command = Command.Unknown)) ∧
    (∀ n, (runLoop b 1 s buffer input).2.2 = LoopResult.panicShortRead n →
      n = input.length) := by
  have hRL : REQUEST_LEN = 28 := rfl
  simp only [hRL]
  by_cases h0 : input.length = 0
  · have hr : (runLoop b 1 s buffer input).2.2 = LoopResult.eofExit := by
      simp [runLoop, loopStep, h0]
    rw [hr]
    refine ⟨?_, ?_, ?_, ?_⟩ <;> simp [h0]
  · by_cases h1 : input.length < 28
    · have hr : (runLoop b 1 s buffer input).2.2 =
          LoopResult.panicShortRead input.length := by
        simp [runLoop, loopStep, hRL, h0, h1]
      rw [hr]
      refine ⟨?_, ?_, ?_, ?_⟩
      · simp
        omega
      · simp
        omega
      · simp
        omega
      · intro n hn
        cases hn
        rfl
    · by_cases hm : (parseRequest (input.take 28)).is_magic_valid = true
      · cases hc : (parseRequest (input.take 28)).command with
        | Read =>
          have hr : (runLoop b 1 s buffer input).2.2 = LoopResult.outOfFuel := by
            simp [runLoop, loopStep, hRL, h0, h1, hm, hc]
          rw [hr]
          refine ⟨?_, ?_, ?_, ?_⟩ <;> (simp [hm, hc]; try omega)
        | Write =>
          by_cases hp : input.length - 28 < (parseRequest (List.take 28 input)).len
          · have hr : (runLoop b 1 s buffer input).2.2 = LoopResult.ioError := by
              simp [runLoop, loopStep, hRL, h0, h1, hm, hc, resizeBuf_length, hp]
            rw [hr]
            refine ⟨?_, ?_, ?_, ?_⟩ <;> (simp [hm, hc]; try omega)
          · have hr : (runLoop b 1 s buffer input).2.2 = LoopResult.outOfFuel := by
              simp [runLoop, loopStep, hRL, h0, h1, hm, hc, resizeBuf_length, hp]
            rw [hr]
            refine ⟨?_, ?_, ?_, ?_⟩ <;> (simp [hm, hc]; try omega)
        | Disconnect =>
          have hr : (runLoop b 1 s buffer input).2.2 = LoopResult.disconnectExit := by
            simp [runLoop, loopStep, hRL, h0, h1, hm, hc]
          rw [hr]
          refine ⟨?_, ?_, ?_, ?_⟩ <;> (simp [hm, hc]; try omega)
        | Flush =>
          have hr : (runLoop b 1 s buffer input).2.2 = LoopResult.outOfFuel := by
            simp [runLoop, loopStep, hRL, h0, h1, hm, hc]
          rw [hr]
          refine ⟨?_, ?_, ?_, ?_⟩ <;> (simp [hm, hc]; try omega)
        | Trim =>
          have hr : (runLoop b 1 s buffer input).2.2 = LoopResult.outOfFuel := by
            simp [runLoop, loopStep, hRL, h0, h1, hm, hc]
          rw [hr]
          refine ⟨?_, ?_, ?_, ?_⟩ <;> (simp [hm, hc]; try omega)
        | Unknown =>
          have hr : (runLoop b 1 s buffer input).2.2 = LoopResult.panicUnknown := by
            simp [runLoop, loopStep, hRL, h0, h1, hm, hc]
          rw [hr]
          refine ⟨?_, ?_, ?_, ?_⟩
          · simp
            omega
          · simp [hm]
          · simp [hm, hc]
            omega
          · simp
      · have hm2 : (parseRequest (input.take 28)).is_magic_valid = false := by
          simp at hm
          exact hm
        have hr : (runLoop b 1 s buffer input).2.2 = LoopResult.panicBadMagic := by
          simp [runLoop, loopStep, hRL, h0, h1, hm2]
        rw [hr]
        refine ⟨?_, ?_, ?_, ?_⟩
        · simp
          omega
        · simp [hm2]
          omega
        · simp [hm2]
        · simp

/-- Witness for C7 on a concrete 3-byte short read. -/
theorem c7_protocol_violation_panics_witness :
    ∃ n, (runLoop testBackend 1 () [] [1, 2, 3]).2.2 = LoopResult.panicShortRead n :=
  (c7_protocol_violation_panics testBackend () [] [1, 2, 3]).1.mpr
    ⟨by decide, by decide⟩

end Vblk
